import Mathlib

/-!
Verification of the LLM code-deployment service (`server.py`, `app.py`).

The Python code is sequential glue around three external collaborators: two
generative-model providers, the GitHub hosting API, and a caller-supplied
callback URL.  We embed it shallowly: every external call is an oracle supplied
as a parameter (a function or an `Option`/`Except`-valued field of a `World`
record), pure string manipulation is translated directly, and a Python
exception is an `Except.error` / `Option.none`.  The observable behaviour of
one background task is the list of outbound `Event`s it performs together with
its final outcome.
-/

/-! ### Python string primitives used by the source -/

/-- Python `s.strip(chars)`: remove from both ends every character that occurs
in `chars` (set semantics, as in CPython). -/
def pyStrip (chars : String) (s : String) : String :=
  let cs := chars.toList
  let l1 := s.toList.dropWhile (fun c => cs.contains c)
  let l2 := (l1.reverse.dropWhile (fun c => cs.contains c)).reverse
  String.mk l2

/-- The whitespace set of Python's no-argument `str.strip()`. -/
def pyWhitespace : String := " \t\n\x0b\x0c\r"

/-- Python `s[:n]` on a `str`. -/
def takeChars (n : Nat) (s : String) : String :=
  String.mk (s.toList.take n)

/-- `leadsWith p l` is true when the character list `l` begins with `p`
(the character-level core of Python `str.startswith`). -/
def leadsWith : List Char → List Char → Bool
  | [], _ => true
  | _ :: _, [] => false
  | p :: ps, x :: xs => p == x && leadsWith ps xs

/-- Python `s.startswith(pre)`. -/
def pyStartsWith (s pre : String) : Bool :=
  leadsWith pre.toList s.toList

/-- Whether a character list contains a comma. -/
def hasComma : List Char → Bool
  | [] => false
  | c :: cs => c == ',' || hasComma cs

/-- Split a character list at its first comma; `none` when no comma occurs. -/
def splitAtComma : List Char → Option (List Char × List Char)
  | [] => none
  | c :: cs =>
    if c == ',' then some ([], cs)
    else
      match splitAtComma cs with
      | none => none
      | some (a, b) => some (c :: a, b)

/-- Python `s.split(",", 1)` followed by unpacking into exactly two variables:
succeeds with the two parts when `s` contains a comma, otherwise the unpacking
raises `ValueError` (modelled as `none`). -/
def splitOnFirstComma (s : String) : Option (String × String) :=
  match splitAtComma s.toList with
  | none => none
  | some (a, b) => some (String.mk a, String.mk b)

/-! ### Content Generator (`server.py:generate_app_code`) -/

/-- `Attachment` Pydantic model (src/server.py). -/
structure Attachment where
  name : String
  url : String
deriving DecidableEq

/-- One iteration of the attachment loop in `generate_app_code`.  The `decode`
oracle stands for `base64.b64decode(data).decode("utf-8", errors="ignore")`:
`none` means `b64decode` raised (which the bare `except:` catches).  The result
is the text appended to `attach_contents`; `none` at the top level models the
*uncaught* `ValueError` raised by `_, data = attach.url.split(",", 1)` when a
`data:` URL contains no comma. -/
def attachLine (decode : String → Option String) (attach : Attachment) : Option String :=
  if pyStartsWith attach.url "data:" then
    match splitOnFirstComma attach.url with
    | none => none
    | some (_, data) =>
      match decode data with
      | some content =>
          some ("\nAttachment " ++ attach.name ++ ": " ++ takeChars 100 content ++ "...")
      | none => some ("\nAttachment " ++ attach.name ++ ": [Binary data]...")
  else some ""

/-- The attachment loop of `generate_app_code`, accumulating `attach_contents`;
`Except.error ()` is the uncaught `ValueError` escaping the loop. -/
def buildAttachContents (decode : String → Option String)
    (attachments : List Attachment) : Except Unit String :=
  attachments.foldl
    (fun acc attach =>
      match acc with
      | .error e => .error e
      | .ok sAcc =>
        match attachLine decode attach with
        | none => .error ()
        | some line => .ok (sAcc ++ line))
    (.ok "")

/-- The prompt construction of `generate_app_code`: the generation prompt is
built first and overwritten by the modification prompt when `existing_code` is
truthy (a Python `None` or empty string both leave the generation prompt). -/
def promptFor (brief attach_contents : String) (existing_code : Option String) : String :=
  let genPrompt :=
    "Generate a single index.html file with inline CSS and JS to implement this brief: "
      ++ brief ++ ". Use attachments if needed: " ++ attach_contents
      ++ ". Make it a complete, functional single-page app."
  match existing_code with
  | some code =>
    if code.isEmpty then genPrompt
    else
      "Modify the existing index.html to incorporate: " ++ brief
        ++ ". Existing code: " ++ code ++ ". Output only the modified index.html."
  | none => genPrompt

/-- The final-fallback document of `generate_app_code`. -/
def placeholderDoc (brief : String) : String :=
  "<!DOCTYPE html>\n<html><head><title>" ++ brief
    ++ "</title></head><body><h1>" ++ brief ++ "</h1></body></html>"

/-- `.strip("```html").strip("```")` as applied to every provider output. -/
def stripFences (s : String) : String :=
  pyStrip "```" (pyStrip "```html" s)

/-- How many times each provider was invoked during one `generate_app_code`
call. -/
structure GenTrace where
  primaryCalls : Nat
  secondaryCalls : Nat
deriving DecidableEq

/-- `generate_app_code` (src/server.py).  `primary` is the Gemini call
(`model.generate_content(prompt).text`), `secondary` the Hugging Face call;
each oracle returns the provider's text or `Except.error ()` when any part of
the attempt raises.  The result pairs the returned markup with the provider
call counts. -/
def generate_app_code (decode : String → Option String)
    (primary secondary : String → Except Unit String)
    (brief : String) (attachments : List Attachment)
    (existing_code : Option String) : Except Unit (String × GenTrace) :=
  match buildAttachContents decode attachments with
  | .error _ => .error ()
  | .ok attach_contents =>
    let prompt := promptFor brief attach_contents existing_code
    match primary prompt with
    | .ok t => .ok (stripFences t, ⟨1, 0⟩)
    | .error _ =>
      match secondary prompt with
      | .ok t => .ok (stripFences t, ⟨1, 1⟩)
      | .error _ => .ok (placeholderDoc brief, ⟨1, 1⟩)

theorem gen_run_strips_fences :
    generate_app_code (fun _ => none) (fun _ => .ok "```html\n<p>hi</p>\n```")
      (fun _ => .ok "x") "b" [] none = .ok ("\n<p>hi</p>\n", ⟨1, 0⟩) := rfl

theorem gen_run_placeholder :
    generate_app_code (fun _ => none) (fun _ => .error ()) (fun _ => .error ())
      "b" [] none = .ok (placeholderDoc "b", ⟨1, 1⟩) := rfl

theorem gen_run_nocomma_dataurl_raises :
    generate_app_code (fun _ => none) (fun _ => .ok "y") (fun _ => .ok "x")
      "b" [⟨"a.bin", "data:application/octet-stream"⟩] none = .error () := rfl

theorem gen_run_wellformed_dataurl :
    generate_app_code (fun _ => none) (fun _ => .ok "y") (fun _ => .ok "x")
      "b" [⟨"a.bin", "data:application/octet-stream;base64,####"⟩] none
      = .ok ("y", ⟨1, 0⟩) := rfl

/-! ### README and license (`server.py:generate_readme`, `MIT_LICENSE`) -/

/-- Python `str(round)` for the `int` field. -/
def intStr (i : Int) : String := toString i

/-- `generate_readme` (src/server.py): the f-string template followed by the
trailing `.strip()`. -/
def generate_readme (brief : String) (checks : List String) (task : String)
    (round : Int) : String :=
  let checks_str := String.intercalate "\n" (checks.map (fun check => "- " ++ check))
  pyStrip pyWhitespace
    ("\n# " ++ task ++ "-" ++ intStr round
      ++ "\n\n## Summary\nThis repository implements a single-page application based on the provided brief: "
      ++ brief
      ++ "\n\n## Setup\n1. Clone the repository.\n2. Open `index.html` in a browser or visit the GitHub Pages URL."
      ++ "\n\n## Usage\nVisit the GitHub Pages URL to interact with the app. The app fulfills the following requirements:\n"
      ++ checks_str
      ++ "\n\n## Code Explanation\nThe application is implemented in `index.html` with inline CSS and JavaScript to meet the brief's requirements. The code is structured to be minimal yet functional, leveraging external libraries (e.g., Bootstrap, marked) as needed."
      ++ "\n\n## License\nMIT License\n")

/-- `MIT_LICENSE` (src/server.py): the triple-quoted template with its trailing
`.strip()`.  The later `MIT_LICENSE.format(username=GITHUB_USERNAME)` is the
identity because the text contains no `format` placeholder. -/
def MIT_LICENSE : String :=
  pyStrip pyWhitespace
    ("\nMIT License\n\nCopyright (c) 2025 Divya-Devendrasingh\n\nPermission is hereby granted, free of charge, to any person obtaining a copy\nof this software and associated documentation files (the \"Software\"), to deal\nin the Software without restriction, including without limitation the rights\nto use, copy, modify, merge, publish, distribute, sublicense, and/or sell\ncopies of the Software, and to permit persons to whom the Software is\nfurnished to do so, subject to the following conditions:\n\nThe above copyright notice and this permission notice shall be included in all\ncopies or substantial portions of the Software.\n\nTHE SOFTWARE IS PROVIDED \"AS IS\", WITHOUT WARRANTY OF ANY KIND, EXPRESS OR\nIMPLIED, INCLUDING BUT NOT LIMITED TO THE WARRANTIES OF MERCHANTABILITY,\nFITNESS FOR A PARTICULAR PURPOSE AND NONINFRINGEMENT. IN NO EVENT SHALL THE\nAUTHORS OR COPYRIGHT HOLDERS BE LIABLE FOR ANY CLAIM, DAMAGES OR OTHER\nLIABILITY, WHETHER IN AN ACTION OF CONTRACT, TORT OR OTHERWISE, ARISING FROM,\nOUT OF OR IN CONNECTION WITH THE SOFTWARE OR THE USE OR OTHER DEALINGS IN THE\nSOFTWARE.\n")

/-! ### Notifier (`server.py:post_to_evaluation_url`)

`outcome n` tells whether the `n`-th 0-based POST attempt succeeds
(`requests.post` returned and `raise_for_status` passed).  The result is
`(number of POSTs issued, list of back-off sleeps in seconds in order,
final outcome)` where `Except.error ()` is the terminal
`HTTPException(status_code=500, ...)`. -/

def postFrom (outcome : Nat → Bool) (retries : Nat) :
    Nat → Nat → Nat × List Nat × Except Unit Unit
  | _attempt, 0 => (0, [], .ok ())
  | attempt, remaining + 1 =>
    if outcome attempt then (1, [], .ok ())
    else if attempt < retries - 1 then
      let rest := postFrom outcome retries (attempt + 1) remaining
      (rest.1 + 1, 2 ^ attempt :: rest.2.1, rest.2.2)
    else (1, [], .error ())

/-- `post_to_evaluation_url` (src/server.py); the source's default retry
budget is `retries = 4`.  The loop variable starts at attempt `0` with
`retries` iterations remaining. -/
def post_to_evaluation_url (outcome : Nat → Bool) (retries : Nat) :
    Nat × List Nat × Except Unit Unit :=
  postFrom outcome retries 0 retries

theorem post_run_all_fail :
    post_to_evaluation_url (fun _ => false) 4 = (4, [1, 2, 4], .error ()) := rfl

theorem post_run_third_succeeds :
    post_to_evaluation_url (fun n => n == 2) 4 = (3, [1, 2], .ok ()) := rfl

/-! ### Request model and inbound endpoint (`server.py:receive_task`) -/

/-- `TaskRequest` Pydantic model (src/server.py). -/
structure TaskRequest where
  email : String
  secret : String
  task : String
  round : Int
  nonce : String
  brief : String
  checks : List String
  evaluation_url : String
  attachments : List Attachment

/-- `fastapi.HTTPException` as observed by a client. -/
structure HTTPException where
  status_code : Int
  detail : String
deriving DecidableEq

/-- The secret check of `receive_task`: `request.secret != EXPECTED_SECRET`,
where `EXPECTED_SECRET = os.getenv("EXPECTED_SECRET")` may be Python `None`
(and a `str` never equals `None`). -/
def secretMatches (expected : Option String) (secret : String) : Bool :=
  match expected with
  | some e => secret == e
  | none => false

/-- Result of the `receive_task` endpoint: the HTTP response sent back at
once, and the background tasks queued via `background_tasks.add_task`. -/
structure ReceiveResult where
  response : Except HTTPException (List (String × String))
  queued : List TaskRequest

/-- `receive_task` (src/server.py): reject on secret mismatch before any other
work, otherwise queue `process_task` and acknowledge immediately. -/
def receive_task (expected : Option String) (req : TaskRequest) : ReceiveResult :=
  if secretMatches expected req.secret then
    ⟨.ok [("status", "received")], [req]⟩
  else
    ⟨.error ⟨403, "Invalid secret"⟩, []⟩

/-- `generate_text` (src/app.py): the secret-guarded LLM endpoint of the
second server variant.  `llm` is the `transformers` pipeline; the `Nat`
counts how many times it was invoked. -/
def generate_text (llm : String → String) (prompt : String)
    (secret : List (String × String)) : Except HTTPException String × Nat :=
  if secret = [("secret", "my-tds-project-secret")] then (.ok (llm prompt), 1)
  else (.error ⟨401, "Invalid secret"⟩, 0)

/-! ### Background processing (`server.py:process_task`)

Every GitHub / HTTP interaction of `process_task` is an outbound `Event`; the
`World` record fixes, once per run, the outcome each external call would have.
Within one `process_task` run the repository is not modified concurrently, so
a fixed outcome per call site is faithful to the source's sequential reads. -/

/-- A PyGithub repository handle, with the fields `process_task` reads. -/
structure Repo where
  name : String
  html_url : String
deriving DecidableEq

/-- A PyGithub content-file handle (`repo.get_contents(...)` result). -/
structure FileHandle where
  sha : String
  content : String
deriving DecidableEq

/-- The JSON payload posted to the evaluation URL. -/
structure Payload where
  email : String
  task : String
  round : Int
  nonce : String
  repo_url : String
  commit_sha : String
  pages_url : String
deriving DecidableEq

/-- One outbound interaction performed by a background task. -/
inductive Event where
  | getRepo (name : String)
  | createRepo (name : String)
  | getContents (path : String)
  | updateFile (path message content : String)
  | createFile (path message content : String)
  | generate (primaryCalls secondaryCalls : Nat)
  | enablePages
  | getCommits
  | notify (url : String) (payload : Payload)
  | logError
deriving DecidableEq

/-- Outcomes of the external calls available to one `process_task` run.
`none` / `Except.error ()` means the corresponding Python call raised. -/
structure World where
  getRepo : Option Repo
  createRepoResult : Except Unit Repo
  getIndex : Option FileHandle
  decodeIndex : Option String
  getReadme : Option FileHandle
  updateReadmeOk : Bool
  createReadmeOk : Bool
  updateIndexOk : Bool
  createIndexOk : Bool
  createLicenseOk : Bool
  enablePagesOk : Bool
  getCommitsSha : Option String
  notifyResult : Except Unit Unit
  decode : String → Option String
  primary : String → Except Unit String
  secondary : String → Except Unit String

/-- Step 4.5 of `process_task`: `user.get_repo(repo_name)` under
`try/except`, creating the repository only when it raised and `round == 1`;
`none` means the subsequent `if not repo: raise HTTPException(...)` fires (or
`create_repo` itself raised). -/
def resolveRepo (w : World) (repo_name : String) (round : Int) :
    List Event × Option Repo :=
  match w.getRepo with
  | some r => ([Event.getRepo repo_name], some r)
  | none =>
    if round = 1 then
      match w.createRepoResult with
      | .ok r => ([Event.getRepo repo_name, Event.createRepo repo_name], some r)
      | .error _ => ([Event.getRepo repo_name, Event.createRepo repo_name], none)
    else ([Event.getRepo repo_name], none)

/-- Step 4.6 of `process_task`: on round 2 fetch `index.html` and base64-decode
it as generation context; any exception is swallowed (`except: pass`). -/
def roundTwoContext (w : World) (round : Int) : List Event × Option String :=
  if round = 2 then
    ([Event.getContents "index.html"],
      match w.getIndex with
      | some _ => w.decodeIndex
      | none => none)
  else ([], none)

/-- Step 4.7's update-or-create block, shared by `README.md` and `index.html`:
`try: fh = get_contents(path); update_file(...) except: create_file(...)`.
The `Bool` is whether the block completed without an uncaught exception. -/
def writeFileStep (fh : Option FileHandle) (updOk crOk : Bool)
    (path updMsg crMsg content : String) : List Event × Bool :=
  let tryPart : List Event × Bool :=
    match fh with
    | some _ => ([Event.getContents path, Event.updateFile path updMsg content], updOk)
    | none => ([Event.getContents path], false)
  if tryPart.2 then tryPart
  else (tryPart.1 ++ [Event.createFile path crMsg content], crOk)

/-- The round-1-only `LICENSE` creation of step 4.7. -/
def licenseStep (w : World) (round : Int) : List Event × Bool :=
  if round = 1 then
    ([Event.createFile "LICENSE" "Add MIT License" MIT_LICENSE], w.createLicenseOk)
  else ([], true)

/-- The round-1-only `enable_github_pages(repo)` of step 4.8. -/
def pagesStep (w : World) (round : Int) : List Event × Bool :=
  if round = 1 then ([Event.enablePages], w.enablePagesOk) else ([], true)

/-- `process_task` (src/server.py).  The result is the ordered list of
outbound events together with the final outcome; `Except.error ()` means the
outer `except Exception` caught a failure, printed it (the trailing
`Event.logError`) and re-raised `HTTPException(500, ...)` into the background
runner. -/
def process_task (w : World) (username : String) (req : TaskRequest) :
    List Event × Except Unit Unit :=
  let repo_name := req.task ++ "-" ++ intStr req.round
  let s1 := resolveRepo w repo_name req.round
  match s1.2 with
  | none => (s1.1 ++ [Event.logError], .error ())
  | some repo =>
    let s2 := roundTwoContext w req.round
    match generate_app_code w.decode w.primary w.secondary req.brief
        req.attachments s2.2 with
    | .error _ => (s1.1 ++ s2.1 ++ [Event.logError], .error ())
    | .ok g =>
      let tg := [Event.generate g.2.primaryCalls g.2.secondaryCalls]
      let s3 := writeFileStep w.getReadme w.updateReadmeOk w.createReadmeOk
        "README.md" ("Update README.md for round " ++ intStr req.round)
        "Add README.md" (generate_readme req.brief req.checks req.task req.round)
      if s3.2 = false then
        (s1.1 ++ s2.1 ++ tg ++ s3.1 ++ [Event.logError], .error ())
      else
        let s4 := writeFileStep w.getIndex w.updateIndexOk w.createIndexOk
          "index.html" ("Update index.html for round " ++ intStr req.round)
          "Add index.html" g.1
        if s4.2 = false then
          (s1.1 ++ s2.1 ++ tg ++ s3.1 ++ s4.1 ++ [Event.logError], .error ())
        else
          let s5 := licenseStep w req.round
          if s5.2 = false then
            (s1.1 ++ s2.1 ++ tg ++ s3.1 ++ s4.1 ++ s5.1 ++ [Event.logError], .error ())
          else
            let s6 := pagesStep w req.round
            if s6.2 = false then
              (s1.1 ++ s2.1 ++ tg ++ s3.1 ++ s4.1 ++ s5.1 ++ s6.1
                ++ [Event.logError], .error ())
            else
              match w.getCommitsSha with
              | none =>
                (s1.1 ++ s2.1 ++ tg ++ s3.1 ++ s4.1 ++ s5.1 ++ s6.1
                  ++ [Event.getCommits, Event.logError], .error ())
              | some sha =>
                let payload : Payload :=
                  ⟨req.email, req.task, req.round, req.nonce, repo.html_url, sha,
                    "https://" ++ username ++ ".github.io/" ++ repo_name ++ "/"⟩
                let t7 := [Event.getCommits, Event.notify req.evaluation_url payload]
                match w.notifyResult with
                | .ok _ =>
                  (s1.1 ++ s2.1 ++ tg ++ s3.1 ++ s4.1 ++ s5.1 ++ s6.1 ++ t7, .ok ())
                | .error _ =>
                  (s1.1 ++ s2.1 ++ tg ++ s3.1 ++ s4.1 ++ s5.1 ++ s6.1 ++ t7
                    ++ [Event.logError], .error ())

/-- One whole inbound request: the immediate HTTP response of `receive_task`,
then the events of every queued background task. -/
def handle_request (w : World) (expected : Option String) (username : String)
    (req : TaskRequest) :
    Except HTTPException (List (String × String)) × List Event :=
  let r := receive_task expected req
  (r.response, (r.queued.map (fun q => (process_task w username q).1)).flatten)

/-! ### Event counting -/

/-- Number of events of `tr` selected by the classifier `f`. -/
def countEv (f : Event → Bool) (tr : List Event) : Nat :=
  (tr.filter f).length

/-- Creation of a `LICENSE` file. -/
def isLicenseCreate : Event → Bool
  | .createFile p _ _ => p == "LICENSE"
  | _ => false

/-- Enabling of static-page publishing. -/
def isEnablePages : Event → Bool
  | .enablePages => true
  | _ => false

/-- Creation of a repository. -/
def isCreateRepo : Event → Bool
  | .createRepo _ => true
  | _ => false

theorem countEv_append (f : Event → Bool) (a b : List Event) :
    countEv f (a ++ b) = countEv f a + countEv f b := by
  simp [countEv, List.filter_append]

theorem countEv_nil (f : Event → Bool) : countEv f [] = 0 := rfl

theorem countEv_cons (f : Event → Bool) (e : Event) (tr : List Event) :
    countEv f (e :: tr) = (if f e then 1 else 0) + countEv f tr := by
  by_cases hfe : f e
  · simp [countEv, List.filter_cons, hfe]
    omega
  · simp [countEv, List.filter_cons, hfe]

@[simp] theorem isLicenseCreate_getRepoEv (n : String) :
    isLicenseCreate (Event.getRepo n) = false := rfl

@[simp] theorem isLicenseCreate_createRepoEv (n : String) :
    isLicenseCreate (Event.createRepo n) = false := rfl

@[simp] theorem isLicenseCreate_getContentsEv (p : String) :
    isLicenseCreate (Event.getContents p) = false := rfl

@[simp] theorem isLicenseCreate_updateFileEv (p m c : String) :
    isLicenseCreate (Event.updateFile p m c) = false := rfl

@[simp] theorem isLicenseCreate_generateEv (a b : Nat) :
    isLicenseCreate (Event.generate a b) = false := rfl

@[simp] theorem isLicenseCreate_enablePagesEv :
    isLicenseCreate Event.enablePages = false := rfl

@[simp] theorem isLicenseCreate_getCommitsEv :
    isLicenseCreate Event.getCommits = false := rfl

@[simp] theorem isLicenseCreate_notifyEv (u : String) (p : Payload) :
    isLicenseCreate (Event.notify u p) = false := rfl

@[simp] theorem isLicenseCreate_logErrorEv :
    isLicenseCreate Event.logError = false := rfl

@[simp] theorem isLicenseCreate_readmeEv (m c : String) :
    isLicenseCreate (Event.createFile "README.md" m c) = false := rfl

@[simp] theorem isLicenseCreate_indexEv (m c : String) :
    isLicenseCreate (Event.createFile "index.html" m c) = false := rfl

@[simp] theorem isLicenseCreate_licenseEv (m c : String) :
    isLicenseCreate (Event.createFile "LICENSE" m c) = true := rfl

@[simp] theorem isEnablePages_getRepoEv (n : String) :
    isEnablePages (Event.getRepo n) = false := rfl

@[simp] theorem isEnablePages_createRepoEv (n : String) :
    isEnablePages (Event.createRepo n) = false := rfl

@[simp] theorem isEnablePages_getContentsEv (p : String) :
    isEnablePages (Event.getContents p) = false := rfl

@[simp] theorem isEnablePages_updateFileEv (p m c : String) :
    isEnablePages (Event.updateFile p m c) = false := rfl

@[simp] theorem isEnablePages_createFileEv (p m c : String) :
    isEnablePages (Event.createFile p m c) = false := rfl

@[simp] theorem isEnablePages_generateEv (a b : Nat) :
    isEnablePages (Event.generate a b) = false := rfl

@[simp] theorem isEnablePages_enablePagesEv :
    isEnablePages Event.enablePages = true := rfl

@[simp] theorem isEnablePages_getCommitsEv :
    isEnablePages Event.getCommits = false := rfl

@[simp] theorem isEnablePages_notifyEv (u : String) (p : Payload) :
    isEnablePages (Event.notify u p) = false := rfl

@[simp] theorem isEnablePages_logErrorEv :
    isEnablePages Event.logError = false := rfl

@[simp] theorem isCreateRepo_getRepoEv (n : String) :
    isCreateRepo (Event.getRepo n) = false := rfl

@[simp] theorem isCreateRepo_createRepoEv (n : String) :
    isCreateRepo (Event.createRepo n) = true := rfl

@[simp] theorem isCreateRepo_logErrorEv :
    isCreateRepo Event.logError = false := rfl

theorem countEv_resolveRepo (f : Event → Bool) (w : World) (n : String) (r : Int)
    (h1 : ∀ m, f (Event.getRepo m) = false)
    (h2 : ∀ m, f (Event.createRepo m) = false) :
    countEv f (resolveRepo w n r).1 = 0 := by
  unfold resolveRepo
  rcases w.getRepo with _ | repo
  · by_cases hr : r = 1
    · subst hr
      rcases w.createRepoResult with r' | r' <;>
        simp [countEv, List.filter, h1, h2]
    · simp [hr, countEv, List.filter, h1]
  · simp [countEv, List.filter, h1]

theorem countEv_roundTwoContext (f : Event → Bool) (w : World) (r : Int)
    (h : f (Event.getContents "index.html") = false) :
    countEv f (roundTwoContext w r).1 = 0 := by
  unfold roundTwoContext
  by_cases hr : r = 2 <;> simp [hr, countEv, List.filter, h]

theorem countEv_writeFileStep (f : Event → Bool) (fh : Option FileHandle)
    (u c : Bool) (p um cm ct : String)
    (h1 : f (Event.getContents p) = false)
    (h2 : f (Event.updateFile p um ct) = false)
    (h3 : f (Event.createFile p cm ct) = false) :
    countEv f (writeFileStep fh u c p um cm ct).1 = 0 := by
  unfold writeFileStep
  rcases fh with _ | fh' <;> rcases u <;>
    simp [countEv, List.filter, h1, h2, h3]

theorem countLic_licenseStep (w : World) (r : Int) :
    countEv isLicenseCreate (licenseStep w r).1 = if r = 1 then 1 else 0 := by
  unfold licenseStep
  by_cases h : r = 1
  · subst h
    rfl
  · simp only [if_neg h]
    rfl

theorem countPag_licenseStep (w : World) (r : Int) :
    countEv isEnablePages (licenseStep w r).1 = 0 := by
  unfold licenseStep
  by_cases h : r = 1
  · subst h
    rfl
  · simp only [if_neg h]
    rfl

theorem countLic_pagesStep (w : World) (r : Int) :
    countEv isLicenseCreate (pagesStep w r).1 = 0 := by
  unfold pagesStep
  by_cases h : r = 1
  · subst h
    rfl
  · simp only [if_neg h]
    rfl

theorem countPag_pagesStep (w : World) (r : Int) :
    countEv isEnablePages (pagesStep w r).1 = if r = 1 then 1 else 0 := by
  unfold pagesStep
  by_cases h : r = 1
  · subst h
    rfl
  · simp only [if_neg h]
    rfl

/-- A concrete all-success round-1 world: fresh repository, Gemini succeeds,
every GitHub call and the notification succeed. -/
def w1 : World :=
  ⟨none, .ok ⟨"task-1", "https://github.com/u/task-1"⟩, none, none, none,
    false, true, false, true, true, true, some "abc123", .ok (),
    fun _ => none, fun _ => .ok "<p>app</p>", fun _ => .error ()⟩

/-- A concrete round-1 request. -/
def req1 : TaskRequest :=
  ⟨"e@x.com", "s3cr3t", "task", 1, "n1", "a brief", [], "https://cb", []⟩

/-- The payload `process_task w1 "u" req1` posts to the evaluation URL. -/
def payload1 : Payload :=
  ⟨"e@x.com", "task", 1, "n1", "https://github.com/u/task-1", "abc123",
    "https://u.github.io/task-1/"⟩

/-- The full event trace of `process_task w1 "u" req1`. -/
def trace1 : List Event :=
  [Event.getRepo "task-1", Event.createRepo "task-1", Event.generate 1 0,
    Event.getContents "README.md",
    Event.createFile "README.md" "Add README.md" (generate_readme "a brief" [] "task" 1),
    Event.getContents "index.html",
    Event.createFile "index.html" "Add index.html" "<p>app</p>",
    Event.createFile "LICENSE" "Add MIT License" MIT_LICENSE,
    Event.enablePages, Event.getCommits,
    Event.notify "https://cb" payload1]

theorem process_task_w1_run : process_task w1 "u" req1 = (trace1, .ok ()) := rfl

/-- C2: for every task request whose background processing runs to completion,
round 1 creates exactly one license file and enables page publishing exactly
once, while round 2 creates no license file and never enables publishing. -/
theorem C2_round_gates_license_and_pages (w : World) (u : String)
    (req : TaskRequest) (tr : List Event)
    (h : process_task w u req = (tr, Except.ok ())) :
    countEv isLicenseCreate tr = (if req.round = 1 then 1 else 0) ∧
    countEv isEnablePages tr = (if req.round = 1 then 1 else 0) := by
  simp only [process_task] at h
  repeat' split at h
  all_goals simp only [Prod.mk.injEq] at h
  any_goals exact absurd h.2 (fun hx => Except.noConfusion hx)
  obtain ⟨htr, -⟩ := h
  subst htr
  refine ⟨?_, ?_⟩ <;>
    simp [countEv_append, countEv_cons, countEv_nil,
      countEv_resolveRepo, countEv_roundTwoContext, countEv_writeFileStep,
      countLic_licenseStep, countPag_licenseStep, countLic_pagesStep,
      countPag_pagesStep]

theorem notify_notin_resolveRepo (w : World) (n : String) (r : Int)
    (url : String) (p : Payload) : Event.notify url p ∉ (resolveRepo w n r).1 := by
  unfold resolveRepo
  rcases w.getRepo with _ | repo
  · by_cases hr : r = 1
    · subst hr
      rcases w.createRepoResult with r' | r' <;> simp
    · simp [hr]
  · simp

theorem notify_notin_roundTwoContext (w : World) (r : Int)
    (url : String) (p : Payload) : Event.notify url p ∉ (roundTwoContext w r).1 := by
  unfold roundTwoContext
  by_cases hr : r = 2 <;> simp [hr]

theorem notify_notin_writeFileStep (fh : Option FileHandle) (u c : Bool)
    (pa um cm ct : String) (url : String) (p : Payload) :
    Event.notify url p ∉ (writeFileStep fh u c pa um cm ct).1 := by
  unfold writeFileStep
  rcases fh with _ | fh' <;> rcases u <;> simp

theorem notify_notin_licenseStep (w : World) (r : Int)
    (url : String) (p : Payload) : Event.notify url p ∉ (licenseStep w r).1 := by
  unfold licenseStep
  by_cases hr : r = 1 <;> simp [hr]

theorem notify_notin_pagesStep (w : World) (r : Int)
    (url : String) (p : Payload) : Event.notify url p ∉ (pagesStep w r).1 := by
  unfold pagesStep
  by_cases hr : r = 1 <;> simp [hr]

/-- C6: on a round-2 task whose repository lookup fails, processing raises,
the failure is logged, and no repository is ever created. -/
theorem C6_round2_missing_repo_fatal (w : World) (u : String) (req : TaskRequest)
    (h2 : req.round = 2) (hnf : w.getRepo = none) :
    (process_task w u req).2 = Except.error () ∧
    Event.logError ∈ (process_task w u req).1 ∧
    countEv isCreateRepo (process_task w u req).1 = 0 := by
  simp [process_task, resolveRepo, hnf, h2, countEv_cons, countEv_nil]

/-- C10: whenever a background run posts to the evaluation URL, the payload
echoes the request's email, task, round and nonce unchanged, the page URL is
the deterministic `https://username.github.io/task-round/`, and the POST goes
to the request's evaluation URL. -/
theorem C10_notify_payload_echoes_request (w : World) (u : String)
    (req : TaskRequest) (url : String) (p : Payload)
    (h : Event.notify url p ∈ (process_task w u req).1) :
    p.email = req.email ∧ p.task = req.task ∧ p.round = req.round ∧
    p.nonce = req.nonce ∧
    p.pages_url = "https://" ++ u ++ ".github.io/" ++ (req.task ++ "-" ++ intStr req.round) ++ "/" ∧
    url = req.evaluation_url := by
  simp only [process_task] at h
  repeat' split at h
  all_goals
    simp [List.mem_append, notify_notin_resolveRepo, notify_notin_roundTwoContext,
      notify_notin_writeFileStep, notify_notin_licenseStep, notify_notin_pagesStep] at h
  all_goals obtain ⟨h1, h2⟩ := h
  all_goals subst h1
  all_goals subst h2
  all_goals exact ⟨rfl, rfl, rfl, rfl, rfl, rfl⟩

/-- C2 witness: the concrete completed round-1 run `process_task w1 "u" req1`
creates the license exactly once and enables pages exactly once. -/
theorem C2_witness :
    process_task w1 "u" req1 = (trace1, Except.ok ()) ∧
    (countEv isLicenseCreate trace1 = (if req1.round = 1 then 1 else 0) ∧
      countEv isEnablePages trace1 = (if req1.round = 1 then 1 else 0)) :=
  ⟨rfl, C2_round_gates_license_and_pages w1 "u" req1 trace1 rfl⟩

/-- A concrete round-2 world whose repository lookup raises. -/
def w2missing : World :=
  ⟨none, .error (), none, none, none, false, true, false, true, true, true,
    some "sha", .ok (), fun _ => none, fun _ => .ok "<p>v2</p>", fun _ => .error ()⟩

/-- A concrete round-2 request. -/
def req2 : TaskRequest :=
  ⟨"e@x.com", "s3cr3t", "task", 2, "n2", "improve it", [], "https://cb", []⟩

/-- C6 witness: the concrete round-2 run with a missing repository errors,
logs, and never creates a repository. -/
theorem C6_witness :
    req2.round = 2 ∧ w2missing.getRepo = none ∧
    ((process_task w2missing "u" req2).2 = Except.error () ∧
      Event.logError ∈ (process_task w2missing "u" req2).1 ∧
      countEv isCreateRepo (process_task w2missing "u" req2).1 = 0) :=
  ⟨rfl, rfl, C6_round2_missing_repo_fatal w2missing "u" req2 rfl rfl⟩

/-- C10 witness: in the concrete round-1 run the posted payload echoes the
request fields and carries the deterministic pages URL. -/
theorem C10_witness :
    Event.notify "https://cb" payload1 ∈ (process_task w1 "u" req1).1 ∧
    (payload1.email = req1.email ∧ payload1.task = req1.task ∧
      payload1.round = req1.round ∧ payload1.nonce = req1.nonce ∧
      payload1.pages_url
        = "https://" ++ "u" ++ ".github.io/" ++ (req1.task ++ "-" ++ intStr req1.round) ++ "/" ∧
      "https://cb" = req1.evaluation_url) :=
  have hmem : Event.notify "https://cb" payload1 ∈ (process_task w1 "u" req1).1 := by
    rw [process_task_w1_run]
    simp [trace1]
  ⟨hmem, C10_notify_payload_echoes_request w1 "u" req1 "https://cb" payload1 hmem⟩

/-- C4: an inbound request whose secret does not match is rejected with a 403
and queues no background work, so the downstream event trace is empty; the
`app.py` variant likewise rejects with a 401 before invoking its LLM. -/
theorem C4_secret_mismatch_no_side_effects (w : World) (expected : Option String)
    (u : String) (req : TaskRequest)
    (h : secretMatches expected req.secret = false) :
    (handle_request w expected u req).1 = Except.error ⟨403, "Invalid secret"⟩ ∧
    (handle_request w expected u req).2 = [] ∧
    (∀ llm prompt secret, secret ≠ [("secret", "my-tds-project-secret")] →
      generate_text llm prompt secret = (Except.error ⟨401, "Invalid secret"⟩, 0)) := by
  refine ⟨?_, ?_, ?_⟩
  · simp [handle_request, receive_task, h]
  · simp [handle_request, receive_task, h]
  · intro llm prompt secret hs
    simp [generate_text, hs]

/-- C4 witness: concrete mismatching secrets for both endpoints. -/
theorem C4_witness :
    secretMatches (some "other") req1.secret = false ∧
    (handle_request w1 (some "other") "u" req1).1 = Except.error ⟨403, "Invalid secret"⟩ ∧
    (handle_request w1 (some "other") "u" req1).2 = [] ∧
    generate_text (fun s => s) "hi" [] = (Except.error ⟨401, "Invalid secret"⟩, 0) :=
  have h : secretMatches (some "other") req1.secret = false := rfl
  have main := C4_secret_mismatch_no_side_effects w1 (some "other") "u" req1 h
  ⟨h, main.1, main.2.1, main.2.2 (fun s => s) "hi" [] (by decide)⟩

/-- C9: an inbound request whose secret matches is acknowledged with
`{"status": "received"}`, whatever the world in which the queued background
work will later run (so whatever that work's eventual outcome). -/
theorem C9_ack_independent_of_background (w : World) (expected : Option String)
    (u : String) (req : TaskRequest)
    (h : secretMatches expected req.secret = true) :
    (handle_request w expected u req).1 = Except.ok [("status", "received")] := by
  simp [handle_request, receive_task, h]

/-- C9 witness: the concrete matching request is acknowledged; the same
acknowledgement comes out of `w1` and of the all-failure world `w2missing`. -/
theorem C9_witness :
    secretMatches (some "s3cr3t") req1.secret = true ∧
    (handle_request w1 (some "s3cr3t") "u" req1).1 = Except.ok [("status", "received")] ∧
    (handle_request w2missing (some "s3cr3t") "u" req1).1 = Except.ok [("status", "received")] :=
  ⟨rfl, C9_ack_independent_of_background w1 (some "s3cr3t") "u" req1 rfl,
    C9_ack_independent_of_background w2missing (some "s3cr3t") "u" req1 rfl⟩

/-- C3: with the source's budget of 4, the notifier issues at most 4 POST
attempts; whenever all 4 attempts are used the back-off waits between
consecutive failed attempts were exactly 2^0, 2^1, 2^2 seconds, hence at
least 7 cumulative seconds before the 4th attempt; and when every attempt
fails the exhaustion is raised to the caller as an error, not swallowed. -/
theorem C3_notifier_budget_backoff_raise (outcome : Nat → Bool) :
    (post_to_evaluation_url outcome 4).1 ≤ 4 ∧
    ((post_to_evaluation_url outcome 4).1 = 4 →
      (post_to_evaluation_url outcome 4).2.1 = [1, 2, 4] ∧
      7 ≤ ((post_to_evaluation_url outcome 4).2.1).sum) ∧
    (outcome 0 = false → outcome 1 = false → outcome 2 = false →
      outcome 3 = false →
      post_to_evaluation_url outcome 4 = (4, [1, 2, 4], Except.error ())) := by
  cases h0 : outcome 0 <;> cases h1 : outcome 1 <;> cases h2 : outcome 2 <;>
    cases h3 : outcome 3 <;>
      simp_all [post_to_evaluation_url, postFrom]

/-- C3 witness: the all-failure outcome uses the whole budget, sleeps
1, 2, 4 seconds (7 in total), and raises. -/
theorem C3_witness :
    (post_to_evaluation_url (fun _ => false) 4).1 ≤ 4 ∧
    (post_to_evaluation_url (fun _ => false) 4).2.1 = [1, 2, 4] ∧
    7 ≤ ((post_to_evaluation_url (fun _ => false) 4).2.1).sum ∧
    post_to_evaluation_url (fun _ => false) 4 = (4, [1, 2, 4], Except.error ()) :=
  have main := C3_notifier_budget_backoff_raise (fun _ => false)
  have hfour := main.2.2 rfl rfl rfl rfl
  ⟨main.1, (main.2.1 (by rw [hfour])).1, (main.2.1 (by rw [hfour])).2, hfour⟩

/-! ### Properties of `pyStrip` -/

@[simp] theorem toList_mk (l : List Char) : (String.mk l).toList = l := rfl

theorem head?_dropWhile_false (p : Char → Bool) :
    ∀ (l : List Char) (c : Char), (l.dropWhile p).head? = some c → p c = false := by
  intro l
  induction l with
  | nil =>
    intro c h
    simp [List.dropWhile] at h
  | cons a t ih =>
    intro c h
    by_cases hpa : p a
    · rw [List.dropWhile_cons_of_pos hpa] at h
      exact ih c h
    · rw [List.dropWhile_cons_of_neg hpa] at h
      simp only [List.head?_cons, Option.some.injEq] at h
      subst h
      simpa using hpa

theorem dropWhile_sfx (p : Char → Bool) (l : List Char) :
    ∃ ys, ys ++ l.dropWhile p = l := by
  induction l with
  | nil => exact ⟨[], rfl⟩
  | cons a t ih =>
    by_cases hpa : p a
    · obtain ⟨ys, hy⟩ := ih
      refine ⟨a :: ys, ?_⟩
      rw [List.dropWhile_cons_of_pos hpa]
      simp [hy]
    · refine ⟨[], ?_⟩
      rw [List.dropWhile_cons_of_neg hpa]
      rfl

/-- The first character of a `pyStrip` result is never in the stripped set. -/
theorem pyStrip_head (chars s : String) (c : Char)
    (h : (pyStrip chars s).toList.head? = some c) :
    chars.toList.contains c = false := by
  simp only [pyStrip, toList_mk] at h
  obtain ⟨ys, hys⟩ :=
    dropWhile_sfx (fun c => chars.toList.contains c)
      (s.toList.dropWhile (fun c => chars.toList.contains c)).reverse
  have hpre :
      ((s.toList.dropWhile (fun c => chars.toList.contains c)).reverse.dropWhile
          (fun c => chars.toList.contains c)).reverse ++ ys.reverse
        = s.toList.dropWhile (fun c => chars.toList.contains c) := by
    have := congrArg List.reverse hys
    simpa [List.reverse_append] using this
  rcases hl2 :
      ((s.toList.dropWhile (fun c => chars.toList.contains c)).reverse.dropWhile
          (fun c => chars.toList.contains c)).reverse with _ | ⟨x, t⟩
  · rw [hl2] at h
    simp at h
  · rw [hl2] at h
    simp only [List.head?_cons, Option.some.injEq] at h
    rw [hl2] at hpre
    have hx : (fun c => chars.toList.contains c) x = false := by
      refine head?_dropWhile_false _ s.toList x ?_
      rw [← hpre]
      rfl
    rw [← h]
    simpa using hx

/-- The last character of a `pyStrip` result is never in the stripped set. -/
theorem pyStrip_last (chars s : String) (c : Char)
    (h : (pyStrip chars s).toList.getLast? = some c) :
    chars.toList.contains c = false := by
  simp only [pyStrip, toList_mk] at h
  rw [List.getLast?_reverse] at h
  exact head?_dropWhile_false (fun c => chars.toList.contains c) _ c h

/-! ### Claims about the Content Generator -/

/-- C5: whenever the primary provider succeeds on the prompt, the generator
returns its stripped text after exactly one primary call and zero secondary
calls — the secondary provider is never invoked. -/
theorem C5_primary_success_skips_secondary
    (decode : String → Option String) (primary secondary : String → Except Unit String)
    (brief : String) (atts : List Attachment) (existing : Option String)
    (s t : String)
    (hs : buildAttachContents decode atts = .ok s)
    (hp : primary (promptFor brief s existing) = .ok t) :
    generate_app_code decode primary secondary brief atts existing
      = .ok (stripFences t, ⟨1, 0⟩) := by
  simp [generate_app_code, hs, hp]

/-- C5 witness: a concrete successful primary call with no attachments. -/
theorem C5_witness :
    buildAttachContents (fun _ => none) [] = .ok "" ∧
    (fun _ => Except.ok "<p>ok</p>" : String → Except Unit String)
        (promptFor "b" "" none) = .ok "<p>ok</p>" ∧
    generate_app_code (fun _ => none) (fun _ => Except.ok "<p>ok</p>")
        (fun _ => Except.error ()) "b" [] none
      = .ok (stripFences "<p>ok</p>", ⟨1, 0⟩) :=
  ⟨rfl, rfl,
    C5_primary_success_skips_secondary (fun _ => none) (fun _ => Except.ok "<p>ok</p>")
      (fun _ => Except.error ()) "b" [] none "" "<p>ok</p>" rfl rfl⟩

/-- C8: every markup text the generator returns from a provider output
(primary, or secondary after the primary raised) is the stripped text, and it
neither starts nor ends with a backtick fence character. -/
theorem C8_no_surrounding_fences
    (decode : String → Option String) (primary secondary : String → Except Unit String)
    (brief : String) (atts : List Attachment) (existing : Option String)
    (s t : String)
    (hs : buildAttachContents decode atts = .ok s)
    (hp : primary (promptFor brief s existing) = .ok t ∨
      (primary (promptFor brief s existing) = .error () ∧
        secondary (promptFor brief s existing) = .ok t)) :
    Except.map Prod.fst (generate_app_code decode primary secondary brief atts existing)
      = .ok (stripFences t) ∧
    (stripFences t).toList.head?.all
      (fun c => !(("```" : String).toList.contains c)) = true ∧
    (stripFences t).toList.getLast?.all
      (fun c => !(("```" : String).toList.contains c)) = true := by
  refine ⟨?_, ?_, ?_⟩
  · rcases hp with hp | ⟨hp1, hp2⟩
    · simp [generate_app_code, hs, hp, Except.map]
    · simp [generate_app_code, hs, hp1, hp2, Except.map]
  · rcases hh : (stripFences t).toList.head? with _ | c
    · rfl
    · have hc : ("```" : String).toList.contains c = false :=
        pyStrip_head "```" (pyStrip "```html" t) c hh
      simp only [Option.all]
      simpa using hc
  · rcases hh : (stripFences t).toList.getLast? with _ | c
    · rfl
    · have hc : ("```" : String).toList.contains c = false :=
        pyStrip_last "```" (pyStrip "```html" t) c hh
      simp only [Option.all]
      simpa using hc

/-- C8 witness: a concrete fenced provider output comes back with the fences
removed and no leading or trailing backtick. -/
theorem C8_witness :
    buildAttachContents (fun _ => none) [] = .ok "" ∧
    (Except.map Prod.fst (generate_app_code (fun _ => none)
        (fun _ => Except.ok "```html\n<p>x</p>\n```") (fun _ => Except.error ())
        "b" [] none) = .ok (stripFences "```html\n<p>x</p>\n```") ∧
      (stripFences "```html\n<p>x</p>\n```").toList.head?.all
        (fun c => !(("```" : String).toList.contains c)) = true ∧
      (stripFences "```html\n<p>x</p>\n```").toList.getLast?.all
        (fun c => !(("```" : String).toList.contains c)) = true) :=
  ⟨rfl,
    C8_no_surrounding_fences (fun _ => none)
      (fun _ => Except.ok "```html\n<p>x</p>\n```") (fun _ => Except.error ())
      "b" [] none "" "```html\n<p>x</p>\n```" rfl (Or.inl rfl)⟩

/-- C1 counterexample: a provider outcome in which the primary succeeds with
the fenced output "```html```" makes the generator return the empty string, so
"returns a non-empty markup string for every combination of provider
outcomes" is false as stated. -/
theorem C1_counterexample :
    generate_app_code (fun _ => none) (fun _ => Except.ok "```html```")
      (fun _ => Except.ok "<p>fallback</p>") "a counter app" [] none
      = Except.ok ("", ⟨1, 0⟩) := rfl

/-- C1 (amended): whenever the attachment loop does not raise, the generator
never raises — it attempts the primary once, on exception the secondary once —
and when both providers raise it returns the placeholder document, which is
non-empty and embeds the brief as both the title and a heading; a successful
provider outcome, however, is returned as the stripped provider text, which
may be empty. -/
theorem C1_generator_never_raises_placeholder_nonempty
    (decode : String → Option String) (primary secondary : String → Except Unit String)
    (brief : String) (atts : List Attachment) (existing : Option String) (s : String)
    (hs : buildAttachContents decode atts = .ok s) :
    (generate_app_code decode primary secondary brief atts existing).isOk = true ∧
    (primary (promptFor brief s existing) = Except.error () →
      secondary (promptFor brief s existing) = Except.error () →
      generate_app_code decode primary secondary brief atts existing
        = .ok (placeholderDoc brief, ⟨1, 1⟩) ∧
      0 < (placeholderDoc brief).length ∧
      placeholderDoc brief
        = "<!DOCTYPE html>\n<html><head>" ++ ("<title>" ++ brief ++ "</title>")
          ++ "</head><body>" ++ ("<h1>" ++ brief ++ "</h1>") ++ "</body></html>") := by
  constructor
  · rcases hp : primary (promptFor brief s existing) with e | t
    · rcases hq : secondary (promptFor brief s existing) with e2 | t2
      · simp [generate_app_code, hs, hp, hq, Except.isOk, Except.toBool]
      · simp [generate_app_code, hs, hp, hq, Except.isOk, Except.toBool]
    · simp [generate_app_code, hs, hp, Except.isOk, Except.toBool]
  · intro h1 h2
    refine ⟨by simp [generate_app_code, hs, h1, h2], ?_, ?_⟩
    · have hA : ("<!DOCTYPE html>\n<html><head><title>" : String).length = 35 := rfl
      simp only [placeholderDoc, String.length_append, hA]
      omega
    · simp [placeholderDoc, String.ext_iff, String.data_append, List.append_assoc]

/-- C1 witness: with no attachments and both providers raising, the generator
returns the non-empty placeholder that embeds the brief twice. -/
theorem C1_witness :
    buildAttachContents (fun _ => none) [] = .ok "" ∧
    ((generate_app_code (fun _ => none) (fun _ => Except.error ())
        (fun _ => Except.error ()) "a counter app" [] none).isOk = true ∧
      (generate_app_code (fun _ => none) (fun _ => Except.error ())
          (fun _ => Except.error ()) "a counter app" [] none
        = .ok (placeholderDoc "a counter app", ⟨1, 1⟩) ∧
       0 < (placeholderDoc "a counter app").length ∧
       placeholderDoc "a counter app"
         = "<!DOCTYPE html>\n<html><head>" ++ ("<title>" ++ "a counter app" ++ "</title>")
           ++ "</head><body>" ++ ("<h1>" ++ "a counter app" ++ "</h1>") ++ "</body></html>")) :=
  have main := C1_generator_never_raises_placeholder_nonempty (fun _ => none)
    (fun _ => Except.error ()) (fun _ => Except.error ()) "a counter app" [] none "" rfl
  ⟨rfl, main.1, main.2 rfl rfl⟩

/-! ### Claims about attachment decoding -/

@[simp] theorem toList_append (a b : String) : (a ++ b).toList = a.toList ++ b.toList :=
  String.data_append a b

theorem leadsWith_append (p rest : List Char) : leadsWith p (p ++ rest) = true := by
  induction p with
  | nil => rfl
  | cons a t ih => simp [leadsWith, ih]

theorem hasComma_append (a b : List Char) :
    hasComma (a ++ b) = (hasComma a || hasComma b) := by
  induction a with
  | nil => rfl
  | cons x t ih => simp [hasComma, ih, Bool.or_assoc]

theorem splitAtComma_append (l1 l2 : List Char) (h : hasComma l1 = false) :
    splitAtComma (l1 ++ ',' :: l2) = some (l1, l2) := by
  induction l1 with
  | nil => simp [splitAtComma]
  | cons x t ih =>
    simp only [hasComma, Bool.or_eq_false_iff] at h
    obtain ⟨hx, ht⟩ := h
    simp [splitAtComma, hx, ih ht]

/-- C7 counterexample: an attachment whose URL starts with `data:` but has no
comma makes `generate_app_code` raise an uncaught `ValueError` (the tuple
unpacking of `attach.url.split(",", 1)` sits outside the `try`), even with
both providers succeeding — so "never aborts due to any attachment's content"
is false as stated. -/
theorem C7_counterexample :
    generate_app_code (fun _ => none) (fun _ => Except.ok "<p>page</p>")
      (fun _ => Except.ok "<p>page</p>") "brief"
      [⟨"blob.bin", "data:application/octet-stream"⟩] none
      = Except.error () := rfl

/-- C7 (amended): for every attachment whose data URL does contain a comma
separator and whose inline payload fails to base64-decode, the generator
degrades that attachment to the `[Binary data]...` placeholder annotation and
does not raise; an attachment whose `data:` URL lacks the comma, however,
aborts the request. -/
theorem C7_decode_failure_degrades_to_placeholder
    (decode : String → Option String) (primary secondary : String → Except Unit String)
    (brief : String) (existing : Option String) (name head data : String)
    (hheadc : hasComma head.toList = false)
    (hdec : decode data = none) :
    attachLine decode ⟨name, "data:" ++ head ++ "," ++ data⟩
      = some ("\nAttachment " ++ name ++ ": [Binary data]...") ∧
    buildAttachContents decode [⟨name, "data:" ++ head ++ "," ++ data⟩]
      = .ok ("\nAttachment " ++ name ++ ": [Binary data]...") ∧
    (generate_app_code decode primary secondary brief
        [⟨name, "data:" ++ head ++ "," ++ data⟩] existing).isOk = true := by
  have hl : ("data:" ++ head ++ "," ++ data).toList
      = ("data:".toList ++ head.toList) ++ ',' :: data.toList := by
    simp [List.append_assoc]
  have hstart : pyStartsWith ("data:" ++ head ++ "," ++ data) "data:" = true := by
    unfold pyStartsWith
    rw [hl, List.append_assoc]
    exact leadsWith_append _ _
  have hnoc : hasComma ("data:".toList ++ head.toList) = false := by
    rw [hasComma_append, hheadc]
    rfl
  have hsplit : splitOnFirstComma ("data:" ++ head ++ "," ++ data)
      = some (String.mk ("data:".toList ++ head.toList), data) := by
    unfold splitOnFirstComma
    rw [hl, splitAtComma_append _ _ hnoc]
    rfl
  have hline : attachLine decode ⟨name, "data:" ++ head ++ "," ++ data⟩
      = some ("\nAttachment " ++ name ++ ": [Binary data]...") := by
    simp only [attachLine, hstart, hsplit, hdec, if_true]
  refine ⟨hline, ?_, ?_⟩
  · simp [buildAttachContents, hline]
  · have hb : buildAttachContents decode [⟨name, "data:" ++ head ++ "," ++ data⟩]
        = .ok ("\nAttachment " ++ name ++ ": [Binary data]...") := by
      simp [buildAttachContents, hline]
    rcases hp : primary (promptFor brief
        ("\nAttachment " ++ name ++ ": [Binary data]...") existing) with e | t
    · rcases hq : secondary (promptFor brief
          ("\nAttachment " ++ name ++ ": [Binary data]...") existing) with e2 | t2
      · simp [generate_app_code, hb, hp, hq, Except.isOk, Except.toBool]
      · simp [generate_app_code, hb, hp, hq, Except.isOk, Except.toBool]
    · simp [generate_app_code, hb, hp, Except.isOk, Except.toBool]

/-- C7 witness: a concrete well-formed `data:` URL whose payload fails to
decode is degraded to the placeholder annotation and the request survives. -/
theorem C7_witness :
    hasComma ("application/octet-stream;base64" : String).toList = false ∧
    (fun _ => (none : Option String)) "%%%" = none ∧
    (attachLine (fun _ => none)
        ⟨"blob.bin", "data:" ++ "application/octet-stream;base64" ++ "," ++ "%%%"⟩
      = some ("\nAttachment " ++ "blob.bin" ++ ": [Binary data]...") ∧
      buildAttachContents (fun _ => none)
          [⟨"blob.bin", "data:" ++ "application/octet-stream;base64" ++ "," ++ "%%%"⟩]
        = .ok ("\nAttachment " ++ "blob.bin" ++ ": [Binary data]...") ∧
      (generate_app_code (fun _ => none) (fun _ => Except.ok "<p>page</p>")
          (fun _ => Except.error ()) "brief"
          [⟨"blob.bin", "data:" ++ "application/octet-stream;base64" ++ "," ++ "%%%"⟩]
          none).isOk = true) :=
  ⟨rfl, rfl,
    C7_decode_failure_degrades_to_placeholder (fun _ => none)
      (fun _ => Except.ok "<p>page</p>") (fun _ => Except.error ()) "brief" none
      "blob.bin" "application/octet-stream;base64" "%%%" rfl rfl⟩
